import Mathlib

/-!
Verification development for the missing-data-tool backend core: the per-feature
statistics cache (backend/models/feature.py), the association-test dispatch and
threshold logic (calculate_feature_correlations_with_thresholds, calculate_eta),
the recommendation rule engine (calculate_recommendation and helpers), and the
dataset missing-mechanism oracle (backend/routes/dashboard_routes.py,
get_cached_missing_mechanism).

Modelling conventions:
- Python floats are modelled as rationals.  NaN is modelled as the value
  Option.none in the statistic results returned by the external scipy
  primitives (pearsonr, f_oneway, chi2_contingency), which this development
  treats as opaque oracles, exactly as the specification treats them
  (black-box functions with an input/output contract).  math.sqrt and np.sqrt
  are likewise abstracted by an oracle on nonnegative rationals; a negative
  argument to math.sqrt raises in the source, which the embedding mirrors by
  taking the enclosing skip branch.
- A pandas DataFrame is a finite ordered list of named columns, each column a
  list of optional cells (Option.none is a missing cell).  Columns of one
  frame all have the same length in pandas; nothing below depends on more.
- Timestamps (datetime.now()) are modelled by an explicit clock argument.
- The process-wide FEATURE_CACHE dict is modelled as a list of Feature
  records keyed by name; dict lookup is List.find? on the name.
- Python round(x, 3) rounds half to even on binary floats; the embedding uses
  round-half-up on exact rationals, which agrees with the source at every
  non-tie argument (no claim below depends on a tie).
-/

/-- Informative-missingness verdict stored on a feature: the
is_informative flag and the associated p-value (feature.py line 22). -/
structure InformativeMissingness where
  is_informative : Bool
  p_value : ℚ
deriving DecidableEq

/-- Recommendation payload produced by the rule engine (the dict with
recommendation_type, reason, rule_applied built in calculate_recommendation,
plus the optional error tags added by calculate_and_set_recommendation). -/
structure Recommendation where
  recommendation_type : String
  reason : String
  rule_applied : Nat
  calculation_failed : Bool := false
  calculation_error : Bool := false
  error_message : Option String := none
deriving DecidableEq

/-- One entry of the correlated-features list built by
calculate_feature_correlations_with_thresholds (feature.py lines 433-471). -/
structure CorrEntry where
  feature_name : String
  correlation_value : ℚ
  correlation_type : String
  p_value : ℚ
deriving DecidableEq

/-- Per-column state object, the Feature class of feature.py (lines 13-29).
Field names follow the Python attributes without the leading underscore. -/
structure Feature where
  name : String
  data_type : String
  number_missing : Nat
  percentage_missing : ℚ
  original_dtype : String
  correlated_features : List CorrEntry
  informative_missingness : InformativeMissingness
  correlations_calculated : Bool
  informative_calculated : Bool
  last_thresholds : List (String × ℚ)
  last_updated : Nat
  recommendation : Option Recommendation
  recommendation_calculated : Bool
deriving DecidableEq

/-- Default informative-missingness value used by the constructor and by the
data_type setter (feature.py lines 22 and 109). -/
def defaultInformative : InformativeMissingness :=
  { is_informative := false, p_value := 1 }

/-- Constructor Feature.__init__ (feature.py lines 15-29). -/
def Feature.init (name data_type : String) (number_missing : Nat)
    (percentage_missing : ℚ) (original_dtype : String) (now : Nat) : Feature :=
  { name := name
    data_type := data_type
    number_missing := number_missing
    percentage_missing := percentage_missing
    original_dtype := original_dtype
    correlated_features := []
    informative_missingness := defaultInformative
    correlations_calculated := false
    informative_calculated := false
    last_thresholds := []
    last_updated := now
    recommendation := none
    recommendation_calculated := false }

/-- Method clear_correlations (feature.py lines 187-195): empties the cached
correlation list and threshold snapshot and drops the cached recommendation. -/
def Feature.clear_correlations (f : Feature) (now : Nat) : Feature :=
  { f with
    correlated_features := []
    correlations_calculated := false
    last_thresholds := []
    recommendation := none
    recommendation_calculated := false
    last_updated := now }

/-- Method set_correlated_features_with_thresholds (feature.py lines 197-205). -/
def Feature.set_correlated_features_with_thresholds (f : Feature)
    (correlations : List CorrEntry) (thresholds : List (String × ℚ)) (now : Nat) : Feature :=
  { f with
    correlated_features := correlations
    correlations_calculated := true
    last_thresholds := thresholds
    recommendation := none
    recommendation_calculated := false
    last_updated := now }

/-- Method set_informative_missingness (feature.py lines 125-132). -/
def Feature.set_informative_missingness (f : Feature)
    (informative_data : InformativeMissingness) (now : Nat) : Feature :=
  { f with
    informative_missingness := informative_data
    informative_calculated := true
    recommendation := none
    recommendation_calculated := false
    last_updated := now }

/-- Method set_recommendation (feature.py lines 134-138). -/
def Feature.set_recommendation (f : Feature) (recommendation_data : Recommendation)
    (now : Nat) : Feature :=
  { f with
    recommendation := some recommendation_data
    recommendation_calculated := true
    last_updated := now }

/-- Method should_recalculate_correlations (feature.py lines 207-217): true when
correlations were never calculated, or some requested threshold entry differs
from the snapshot recorded at the last calculation (dict .get lookup by key). -/
def Feature.should_recalculate_correlations (f : Feature)
    (new_thresholds : List (String × ℚ)) : Bool :=
  if !f.correlations_calculated then true
  else new_thresholds.any (fun kv => !(f.last_thresholds.lookup kv.1 == some kv.2))

/-- Method needs_recommendation_recalculation (feature.py lines 144-149). -/
def Feature.needs_recommendation_recalculation (f : Feature) : Bool :=
  !f.recommendation_calculated

/-- Lookup in the FEATURE_CACHE dict by feature name (feature.py line 257). -/
def storeFind (store : List Feature) (feature_name : String) : Option Feature :=
  store.find? (fun g => g.name == feature_name)

/-- Result of the data_type setter acting on the whole store: the store after
the call together with the message of the ValueError raised, if any.  A raised
error leaves the store untouched, mirroring that the Python setter raises
before any mutation (feature.py lines 96-99). -/
structure SetTypeResult where
  store : List Feature
  error : Option String
deriving DecidableEq

/-- Setter Feature.data_type (feature.py lines 96-113) acting on a cache-resident
feature, as invoked by the PATCH /api/features-table route (features_routes.py
lines 454-462, which fetches the feature from FEATURE_CACHE first).  An invalid
value raises ValueError before any mutation; assigning the current value is a
no-op; assigning a different valid value clears correlations of EVERY cached
feature (the for loop over FEATURE_CACHE.values() at lines 104-106) and resets
the changed feature's informative missingness and recommendation.
applyTypeChange is the per-feature effect of one setter call on a cached
feature: the changed feature also gets the new type and the informative and
recommendation resets of feature.py lines 103-113, every other feature gets
clear_correlations. -/
def applyTypeChange (feature_name value : String) (now : Nat) (g : Feature) : Feature :=
  if g.name == feature_name then
    { g.clear_correlations now with
      data_type := value
      informative_calculated := false
      informative_missingness := defaultInformative
      recommendation := none
      recommendation_calculated := false
      last_updated := now }
  else g.clear_correlations now

def setDataTypeInStore (store : List Feature) (feature_name value : String)
    (now : Nat) : SetTypeResult :=
  if value != "N" && value != "C" then
    { store := store, error := some ("Data type must be \x27N\x27 or \x27C\x27") }
  else
    match storeFind store feature_name with
    | none => { store := store, error := some ("Feature \x27" ++ feature_name ++ "\x27 not found.") }
    | some f =>
      if f.data_type == value then { store := store, error := none }
      else
        { store := store.map (applyTypeChange feature_name value now)
          error := none }

/-- Python str.lower(), as a character-wise map over the string data. -/
def strLower (s : String) : String := ⟨s.data.map Char.toLower⟩

/-- Substring containment, the Python `needle in haystack` test on strings:
some suffix of the haystack starts with the needle. -/
def strContains (haystack needle : String) : Bool :=
  let n := needle.toList
  let h := haystack.toList
  (List.range (h.length + 1)).any (fun i => n.isPrefixOf (h.drop i))

/-- Helper _has_informative_missingness (feature.py lines 665-669). -/
def has_informative_missingness (feature : Feature) : Bool :=
  if !feature.informative_calculated then false
  else feature.informative_missingness.is_informative

/-- Helper _is_strongly_correlated (feature.py lines 672-677). -/
def is_strongly_correlated (feature : Feature) : Bool :=
  if !feature.correlations_calculated then false
  else feature.correlated_features.length > 0

/-- Helper _is_categorical_feature (feature.py lines 680-682). -/
def is_categorical_feature (feature : Feature) : Bool :=
  feature.data_type == "C"

/-- Helper _is_mar_or_mnar_mechanism (feature.py lines 690-695); a None or
empty mechanism string is falsy in Python. -/
def is_mar_or_mnar_mechanism (dataset_mechanism : Option String) : Bool :=
  match dataset_mechanism with
  | none => false
  | some s =>
    if s.isEmpty then false
    else strContains (strLower s) ("mar") || strContains (strLower s) ("mnar")

/-- Helper _is_mcar_mechanism (feature.py lines 698-702). -/
def is_mcar_mechanism (dataset_mechanism : Option String) : Bool :=
  match dataset_mechanism with
  | none => false
  | some s =>
    if s.isEmpty then false
    else strContains (strLower s) ("mcar")

/-- Helper _get_mechanism_explanation (feature.py lines 705-721). -/
def get_mechanism_explanation (dataset_mechanism : Option String) : String :=
  match dataset_mechanism with
  | none => ""
  | some s =>
    if s.isEmpty then ""
    else
      let ml := strLower s
      if strContains ml ("mcar") then "(Missing Completely at Random)"
      else if strContains ml ("mar") && strContains ml ("mnar") then
        "(Missing at Random or Missing Not at Random)"
      else if strContains ml ("mar") then "(Missing at Random)"
      else if strContains ml ("mnar") then "(Missing Not at Random)"
      else ""

/-- Rule 1 payload (feature.py lines 775-782): missing-indicator method. -/
def rule1Recommendation : Recommendation :=
  { recommendation_type := "Missing-indicator method"
    reason := "These numerical features likely have informative missingness."
    rule_applied := 1 }

/-- Rule 2 payload (feature.py lines 789-797): remove features. -/
def rule2Recommendation : Recommendation :=
  { recommendation_type := "Remove Features"
    reason := "These features with missing data are strongly correlated with features with complete data. Missing values can be predicted from correlated features, making removal viable."
    rule_applied := 2 }

/-- Rule 3 payload (feature.py lines 804-811): unknown category. -/
def rule3Recommendation : Recommendation :=
  { recommendation_type := "Create an \x27unknown\x27 category or consider adjusting the categories"
    reason := "An \x27unknown\x27 category can replace missing data for categorical features. If it is an ordinal feature, also consider adjusting the categories"
    rule_applied := 3 }

/-- Rule 4 payload (feature.py lines 818-826): ML methods or multiple
imputation, naming the MAR/MNAR mechanism. -/
def rule4Recommendation (dataset_mechanism : Option String) : Recommendation :=
  { recommendation_type := "Machine learning algorithms that can directly handle missing data or multiple imputation"
    reason := "Since your data is " ++ get_mechanism_explanation dataset_mechanism ++ ", imputing missing data with mean, median, or mode will likely introduce bias. Consider the alternatives instead."
    rule_applied := 4 }

/-- Rule 5 payload (feature.py lines 833-841): all standard methods valid,
naming the MCAR mechanism. -/
def rule5Recommendation (dataset_mechanism : Option String) : Recommendation :=
  { recommendation_type := "All methods are valid: complete case analysis, machine learning algorithms that can directly handle missing data, multiple imputation, etc."
    reason := "Since your data is " ++ get_mechanism_explanation dataset_mechanism ++ ", all missing data treatment methods are valid."
    rule_applied := 5 }

/-- Fallback payload of the rule engine (feature.py lines 846-867): issued when
no rule fires, with a reason adapted to the feature semantic type. -/
def fallbackRecommendation (feature : Feature) : Recommendation :=
  let base := "Dataset missing data mechanism could not be determined."
  let fallback_reason :=
    if feature.data_type == "C" then
      base ++ " For categorical features, consider creating an \x27unknown\x27 category or using advanced imputation methods."
    else if feature.data_type == "N" then
      base ++ " For numerical features, advanced methods like machine learning algorithms or multiple imputation are recommended."
    else
      base ++ " Advanced methods are recommended as a safe default."
  { recommendation_type := "Machine learning algorithms that can directly handle missing data or multiple imputation"
    reason := fallback_reason
    rule_applied := 4 }

/-- Rule engine calculate_recommendation (feature.py lines 741-875): the five
rules tried strictly in order, first match wins, then the fallback.  The
per-rule try/except handlers of the source guard attribute access on the
feature object; in this typed embedding every applicability check is a total
function, so the handlers have no behaviour to model.  The source returns None
only when handed an object that is not a Feature or when an exception escapes
the fallback construction, neither of which is expressible here, so the Option
result is always some. -/
def calculate_recommendation (feature : Feature)
    (dataset_mechanism : Option String) : Option Recommendation :=
  -- Rule 1: informative missingness (highest priority)
  if has_informative_missingness feature then some rule1Recommendation
  -- Rule 2: strong correlation with complete features
  else if is_strongly_correlated feature then some rule2Recommendation
  -- Rule 3: categorical feature
  else if is_categorical_feature feature then some rule3Recommendation
  -- Rule 4: MAR/MNAR dataset mechanism
  else if is_mar_or_mnar_mechanism dataset_mechanism then
    some (rule4Recommendation dataset_mechanism)
  -- Rule 5: MCAR dataset mechanism
  else if is_mcar_mechanism dataset_mechanism then
    some (rule5Recommendation dataset_mechanism)
  -- Fallback logic (feature.py lines 846-867)
  else some (fallbackRecommendation feature)

/-- Outcome of invoking calculate_recommendation from inside the try of
calculate_and_set_recommendation: the call may in principle raise (modelled by
Except.error with the exception text) or return None; the non-exceptional
outcome of the pure engine above is Except.ok (calculate_recommendation f m). -/
abbrev EngineOutcome := Except String (Option Recommendation)

/-- Method calculate_and_set_recommendation (feature.py lines 151-185): caches
the engine result; a None result is replaced by a conservative fallback tagged
calculation_failed, a raised exception by one tagged calculation_error.  The
function is total: no outcome escapes to the caller. -/
def Feature.calculate_and_set_recommendation (f : Feature)
    (outcome : EngineOutcome) (now : Nat) : Feature :=
  match outcome with
  | .ok (some recommendation_result) => f.set_recommendation recommendation_result now
  | .ok none =>
    f.set_recommendation
      { recommendation_type := "Machine learning algorithms that can directly handle missing data or multiple imputation"
        reason := "Unable to determine specific recommendation for feature \x27" ++ f.name ++ "\x27. Using conservative fallback approach."
        rule_applied := 4
        calculation_failed := true } now
  | .error e =>
    f.set_recommendation
      { recommendation_type := "Machine learning algorithms that can directly handle missing data or multiple imputation"
        reason := "Error occurred while analyzing feature \x27" ++ f.name ++ "\x27. Using conservative fallback approach."
        rule_applied := 4
        calculation_error := true
        error_message := some e } now

/-- Tabular snapshot: ordered named columns, each a list of optional cells
(none is a missing cell).  In pandas all columns of one frame share a length. -/
abbrev Dataset := List (String × List (Option ℚ))

/-- Column lookup df[name] (first column with that name). -/
def colValues (df : Dataset) (name : String) : Option (List (Option ℚ)) :=
  (df.find? (fun c => c.1 == name)).map Prod.snd

/-- Test series.isnull().all(): every cell of the column is missing
(vacuously true on an empty column, as in pandas). -/
def allMissing (xs : List (Option ℚ)) : Bool :=
  xs.all (fun x => x.isNone)

/-- Rows where both series have a present value, the combined valid_mask of
feature.py lines 361-363, 426 and 456, paired positionally. -/
def validPairs (xs ys : List (Option ℚ)) : List (ℚ × ℚ) :=
  (xs.zip ys).filterMap (fun p =>
    match p with
    | (some a, some b) => some (a, b)
    | _ => none)

/-- Distinct values in ascending order, the sorted group/category keys that
pandas groupby and crosstab produce. -/
def distinctSorted (xs : List ℚ) : List ℚ :=
  xs.dedup.mergeSort (fun a b => decide (a ≤ b))

/-- Grouping of the numerical values by categorical value (feature.py line 369,
num_valid.groupby(cat_valid)); the pairs carry (category, numerical value). -/
def groupsFor (pairs : List (ℚ × ℚ)) : List (List ℚ) :=
  (distinctSorted (pairs.map Prod.fst)).map
    (fun k => (pairs.filter (fun p => p.1 == k)).map Prod.snd)

/-- Contingency table pd.crosstab over the valid pairs (feature.py line 458):
rows indexed by the distinct values of the first series, columns by the
distinct values of the second, cells holding co-occurrence counts. -/
def crosstab (pairs : List (ℚ × ℚ)) : List (List Nat) :=
  let rows := distinctSorted (pairs.map Prod.fst)
  let cols := distinctSorted (pairs.map Prod.snd)
  rows.map (fun r => cols.map (fun c =>
    (pairs.filter (fun p => p.1 == r && p.2 == c)).length))

/-- Black-box statistical primitives (scipy.stats.pearsonr, f_oneway,
chi2_contingency and the square root), exactly the collaborator contract of
the specification: each returns a statistic (none modelling NaN) and a
p-value.  sqrtQ abstracts math.sqrt/np.sqrt on nonnegative arguments. -/
structure StatsOracle where
  pearsonr : List (ℚ × ℚ) → Option ℚ × ℚ
  fOneway : List (List ℚ) → Option ℚ × ℚ
  chi2_contingency : List (List Nat) → Option ℚ × ℚ
  sqrtQ : ℚ → ℚ

/-- Python round(x, 3): scale, round to the nearest integer, unscale.
Rounds half up where the source rounds half to even; they agree off ties. -/
def round3 (x : ℚ) : ℚ :=
  ((round (x * 1000) : ℤ) : ℚ) / 1000

/-- Function calculate_eta (feature.py lines 357-396).  Returns none when the
source returns (None, None): fewer than 10 valid paired rows, fewer than 2
categories, or a negative eta-squared (math.sqrt raises ValueError there and
the except handler yields (None, None)).  Otherwise returns the (eta, p_value)
pair, where an inner none models a NaN F statistic propagating to eta. -/
def calculate_eta (o : StatsOracle)
    (categorical_series numerical_series : List (Option ℚ)) : Option (Option ℚ × ℚ) :=
  let pairs := validPairs categorical_series numerical_series
  if pairs.length < 10 then none
  else
    let groups := groupsFor pairs
    if groups.length < 2 then none
    else
      let fp := o.fOneway groups
      match fp.1 with
      | none => some (none, fp.2)
      | some f_stat =>
        let df_within : ℚ := ((pairs.length : ℤ) - (groups.length : ℤ) : ℤ)
        let eta_squared : ℚ := f_stat / (f_stat + df_within)
        if eta_squared < 0 then none
        else some (some (o.sqrtQ eta_squared), fp.2)

/-- Number of columns of a contingency table (shape[1]). -/
def tableCols (table : List (List Nat)) : Nat :=
  (table.head?.getD []).length

/-- Cached semantic type of a named column, defaulting to categorical when the
feature is not cached (feature.py lines 421-422, the type(...) default object
carrying data_type C). -/
def cachedType (cache : List Feature) (name : String) : String :=
  ((storeFind cache name).map Feature.data_type).getD "C"

/-- Scoring of a single candidate pair, the body of the for loop of
calculate_feature_correlations_with_thresholds (feature.py lines 413-471):
skip when either column is entirely missing, dispatch on the cached semantic
types (defaulting to categorical when a feature is not cached), apply the
per-kind sample-size and threshold checks, and round the stored value to 3
decimals.  Returns the appended entry, if any. -/
def scorePair (o : StatsOracle) (cache : List Feature) (df : Dataset)
    (feature_name : String)
    (pearson_threshold cramer_v_threshold eta_threshold : ℚ)
    (col : String × List (Option ℚ)) : Option CorrEntry :=
  let fvals := (colValues df feature_name).getD []
  if allMissing fvals || allMissing col.2 then none
  else
    let feature_type := cachedType cache feature_name
    let col_type := cachedType cache col.1
    if feature_type == "N" && col_type == "N" then
      -- Both numerical: Pearson correlation (feature.py lines 423-438)
      let pairs := validPairs fvals col.2
      if pairs.length > 10 then
        let cp := o.pearsonr pairs
        match cp.1 with
        | some corr =>
          if |corr| ≥ pearson_threshold then
            some { feature_name := col.1
                   correlation_value := round3 corr
                   correlation_type := "r"
                   p_value := cp.2 }
          else none
        | none => none
      else none
    else if feature_type == "N" || col_type == "N" then
      -- One numerical, one categorical: Eta (feature.py lines 440-453)
      let numerical_col := if feature_type == "N" then fvals else col.2
      let categorical_col := if feature_type == "C" then fvals else col.2
      match calculate_eta o categorical_col numerical_col with
      | some (some eta, p) =>
        if eta ≥ eta_threshold then
          some { feature_name := col.1
                 correlation_value := round3 eta
                 correlation_type := "η"
                 p_value := p }
        else none
      | _ => none
    else
      -- Both categorical: Cramers V (feature.py lines 454-471)
      let pairs := validPairs fvals col.2
      if pairs.length > 10 then
        let table := crosstab pairs
        if table.length > 1 && tableCols table > 1 then
          let cp := o.chi2_contingency table
          match cp.1 with
          | some chi2 =>
            let n : ℚ := (pairs.length : ℚ)
            let min_dim : Nat := min table.length (tableCols table) - 1
            if min_dim > 0 then
              let arg := chi2 / (n * (min_dim : ℚ))
              if arg < 0 then none
              else
                let cramer_v := o.sqrtQ arg
                if cramer_v ≥ cramer_v_threshold then
                  some { feature_name := col.1
                         correlation_value := round3 cramer_v
                         correlation_type := "V"
                         p_value := cp.2 }
                else none
            else none
          | none => none
        else none
      else none

/-- Function calculate_feature_correlations_with_thresholds (feature.py lines
399-483).  Returns [] when the feature is not a dataframe column (line 408),
and also when the feature is not in FEATURE_CACHE: the debug print at line 475
evaluates FEATURE_CACHE.get(feature_name, dict()).data_type, whose attribute
access raises on the dict default, and the enclosing try/except returns [].
Otherwise scores every other column and sorts by absolute stored value,
descending (stable, as list.sort is). -/
def calculate_feature_correlations_with_thresholds (o : StatsOracle)
    (cache : List Feature) (df : Dataset) (feature_name : String)
    (pearson_threshold cramer_v_threshold eta_threshold : ℚ) : List CorrEntry :=
  if (colValues df feature_name).isNone then []
  else if (storeFind cache feature_name).isNone then []
  else
    let correlations := df.filterMap (fun col =>
      if col.1 == feature_name then none
      else scorePair o cache df feature_name
        pearson_threshold cramer_v_threshold eta_threshold col)
    correlations.mergeSort
      (fun a b => decide (|b.correlation_value| ≤ |a.correlation_value|))

/-- Threshold dict assembled by the GET /api/feature-details route
(features_routes.py lines 412-416). -/
def currentThresholds (pearson_threshold cramer_v_threshold eta_squared_threshold : ℚ) :
    List (String × ℚ) :=
  [("pearson_threshold", pearson_threshold),
   ("cramer_v_threshold", cramer_v_threshold),
   ("eta_squared_threshold", eta_squared_threshold)]

/-- Correlation step of get_feature_details (features_routes.py lines 411-422):
recompute and cache the correlations only when the recalculation gate fires,
otherwise leave the feature untouched (cache hit). -/
def get_feature_details_correlation_step (o : StatsOracle) (cache : List Feature)
    (df : Dataset) (f : Feature)
    (pearson_threshold cramer_v_threshold eta_squared_threshold : ℚ)
    (now : Nat) : Feature :=
  let ths := currentThresholds pearson_threshold cramer_v_threshold eta_squared_threshold
  if f.should_recalculate_correlations ths then
    f.set_correlated_features_with_thresholds
      (calculate_feature_correlations_with_thresholds o cache df f.name
        pearson_threshold cramer_v_threshold eta_squared_threshold)
      ths now
  else f

/-- Paired non-missing sample size of two named columns of a dataframe. -/
def pairedCount (df : Dataset) (a b : String) : Nat :=
  (validPairs ((colValues df a).getD []) ((colValues df b).getD [])).length

/-- Verdict dict cached by get_cached_missing_mechanism
(dashboard_routes.py lines 62-249); absent dict keys are none. -/
structure MechanismData where
  success : Bool
  message : Option String
  p_value : Option ℚ
  mechanism_acronym : Option String
  mechanism_full : Option String
  error_type : Option String
  confidence : Option String
deriving DecidableEq

/-- Behaviour of the black-box MCARTest(method="little").little_mcar_test call
(dashboard_routes.py lines 126-127): it may raise (the three distinct handled
exception classes), return None, return NaN or an infinity, or return a finite
p-value. -/
inductive MCARTestResult where
  | importError (msg : String)
  | valueError (msg : String)
  | otherError (msg : String)
  | noneResult
  | nanResult
  | value (p : ℚ)
deriving DecidableEq

/-- Test df.isnull().any().any(): some cell of some column is missing. -/
def hasAnyMissing (df : Dataset) : Bool :=
  df.any (fun c => c.2.any (fun x => x.isNone))

/-- Row count len(df) of a rectangular frame. -/
def numRows (df : Dataset) : Nat :=
  (df.head?.map (fun c => c.2.length)).getD 0

/-- Test df.empty: a frame with no columns or no rows. -/
def dfEmpty (df : Dataset) : Bool :=
  df.isEmpty || numRows df == 0

/-- Outcome of one call to get_cached_missing_mechanism: the returned verdict,
the app-state cache afterwards, and whether the underlying MCAR test ran. -/
structure MechanismStep where
  result : MechanismData
  newCache : Option MechanismData
  testInvoked : Bool
deriving DecidableEq

/-- Failure verdict constructor: every failure dict of the source carries
success=False, a message, an error_type, and None statistics. -/
def mechanismFailure (message error_type : String) : MechanismData :=
  { success := false
    message := some message
    p_value := none
    mechanism_acronym := none
    mechanism_full := none
    error_type := some error_type
    confidence := none }

/-- Function get_cached_missing_mechanism (dashboard_routes.py lines 62-249):
return the cached verdict when present; otherwise run the ordered
precondition chain (dataset present and non-empty, at least one missing
value, at least 30 rows), then the black-box MCAR test, classify a finite
p-value against 0.05, and cache whatever verdict resulted.  dfOpt models
request.app.state.df; get_uploaded_dataframe rejects a missing or empty
frame (lines 12-19). -/
def get_cached_missing_mechanism (cache : Option MechanismData)
    (dfOpt : Option Dataset) (mcarTest : Dataset → MCARTestResult) : MechanismStep :=
  match cache with
  | some m => { result := m, newCache := some m, testInvoked := false }
  | none =>
    let finish (m : MechanismData) (invoked : Bool) : MechanismStep :=
      { result := m, newCache := some m, testInvoked := invoked }
    match dfOpt with
    | none =>
      finish (mechanismFailure
        ("No dataset available for missing data mechanism analysis.")
        ("no_data")) false
    | some df =>
      if dfEmpty df then
        finish (mechanismFailure
          ("No dataset available for missing data mechanism analysis.")
          ("no_data")) false
      else if !hasAnyMissing df then
        finish (mechanismFailure
          ("No missing data found in dataset - mechanism analysis not applicable.")
          ("no_missing_data")) false
      else if numRows df < 30 then
        finish (mechanismFailure
          ("Dataset too small for reliable missing data mechanism testing (only "
            ++ toString (numRows df)
            ++ " rows). At least 30 rows recommended.")
          ("insufficient_data")) false
      else
        match mcarTest df with
        | .importError _ =>
          finish (mechanismFailure
            ("Required statistical libraries not available for missing data mechanism testing.")
            ("library_error")) true
        | .valueError msg =>
          finish (mechanismFailure
            ("Dataset format not suitable for missing data mechanism testing: " ++ msg)
            ("data_format_error")) true
        | .otherError msg =>
          finish (mechanismFailure
            ("Error running missing data mechanism test: " ++ msg
              ++ ". Using conservative fallback recommendations.")
            ("test_error")) true
        | .noneResult =>
          finish (mechanismFailure
            ("Missing data mechanism test did not produce valid results. This may be due to data characteristics or insufficient variation.")
            ("invalid_result")) true
        | .nanResult =>
          finish (mechanismFailure
            ("Missing data mechanism test produced invalid statistical results (NaN or infinite values).")
            ("invalid_result")) true
        | .value p =>
          let acronym := if p < 1/20 then "MAR or MNAR" else "MCAR"
          let full := if p < 1/20 then "(Missing at Random or Missing Not at Random)"
                      else "(Missing Completely at Random)"
          finish
            { success := true
              message := none
              p_value := some p
              mechanism_acronym := some acronym
              mechanism_full := some full
              error_type := none
              confidence := some (if |p - 1/20| > 1/100 then "high" else "moderate") } true

/-! Concrete instances used to evaluate the embedded operations on explicit
inputs: small feature caches, dataframes and statistics oracles. -/

/-- Numeric feature x as built by initialize_feature_cache. -/
def exFeatureX : Feature := Feature.init ("x") ("N") 2 20 ("float64") 0

/-- Categorical feature c as built by initialize_feature_cache. -/
def exFeatureC : Feature := Feature.init ("c") ("C") 1 10 ("object") 0

/-- Numeric feature y as built by initialize_feature_cache. -/
def exFeatureY : Feature := Feature.init ("y") ("N") 1 10 ("float64") 0

/-- Cache with one numeric and one categorical feature. -/
def exCacheNC : List Feature := [exFeatureX, exFeatureC]

/-- Cache with two numeric features. -/
def exCacheNN : List Feature := [exFeatureX, exFeatureY]

/-- Dataframe with a numeric column x and a two-category column c, 10 rows,
no missing cell: every row is valid in both columns. -/
def exDfEta : Dataset :=
  [(("x"), [some 1, some 2, some 3, some 4, some 5,
            some 6, some 7, some 8, some 9, some 10]),
   (("c"), [some 0, some 1, some 0, some 1, some 0,
            some 1, some 0, some 1, some 0, some 1])]

/-- Dataframe with two numeric columns of 11 rows, no missing cell. -/
def exDfNN : Dataset :=
  [(("x"), [some 1, some 2, some 3, some 4, some 5, some 6,
            some 7, some 8, some 9, some 10, some 11]),
   (("y"), [some 2, some 4, some 6, some 8, some 10, some 12,
            some 14, some 16, some 18, some 20, some 22])]

/-- Oracle whose one-way ANOVA yields F = 1 and whose square root is the
constant 1, driving the Eta branch to a retained score. -/
def exOracleEta : StatsOracle :=
  { pearsonr := fun _ => (some 0, 0)
    fOneway := fun _ => (some 1, 1/100)
    chi2_contingency := fun _ => (some 0, 0)
    sqrtQ := fun _ => 1 }

/-- Oracle whose Pearson correlation is exactly 0.7004, a value just above a
threshold of 0.7004 before rounding and below it after rounding to 3 decimals. -/
def exOracleP : StatsOracle :=
  { pearsonr := fun _ => (some (7004/10000), 1/100)
    fOneway := fun _ => (none, 0)
    chi2_contingency := fun _ => (none, 0)
    sqrtQ := fun x => x }

/-- Eta entry produced on exDfEta by exOracleEta. -/
def exEtaEntry : CorrEntry :=
  { feature_name := "c", correlation_value := 1, correlation_type := "η", p_value := 1/100 }

/-- Pearson entry produced on exDfNN by exOracleP: the stored value is the
raw 0.7004 rounded to 0.7. -/
def exPearsonEntry : CorrEntry :=
  { feature_name := "y", correlation_value := 7/10, correlation_type := "r", p_value := 1/100 }

/-- Categorical feature with neither correlations nor informative missingness
computed, exercising rule 3. -/
def exCatFeature : Feature := Feature.init ("cat") ("C") 3 30 ("object") 0

/-- Numeric feature with neither correlations nor informative missingness
computed, exercising rule 5 under an MCAR mechanism. -/
def exNumFeature : Feature := Feature.init ("num") ("N") 2 20 ("float64") 0

/-- Feature whose informative-missingness verdict is positive and which also
has cached correlations, exercising the rule 1/rule 2 precedence. -/
def exInformativeFeature : Feature :=
  { exFeatureX with
    informative_calculated := true
    informative_missingness := { is_informative := true, p_value := 1/100 }
    correlations_calculated := true
    correlated_features := [exPearsonEntry] }

/-- Feature whose correlations were cached under an explicit threshold set. -/
def exCachedFeature : Feature :=
  { exFeatureX with
    correlations_calculated := true
    last_thresholds := currentThresholds 1 1 1 }

/-- One-column, one-row dataframe with no missing cell. -/
def exDfNoMissing : Dataset := [(("a"), [some 1])]

/-- MCAR test oracle that would return None if it were ever invoked. -/
def exTestOracle : Dataset → MCARTestResult := fun _ => MCARTestResult.noneResult

/-! Helper lemmas. -/

/-- find? over a name-preserving map of the store commutes with storeFind. -/
theorem storeFind_map (store : List Feature) (h : Feature → Feature)
    (hname : ∀ g, (h g).name = g.name) (n : String) :
    storeFind (store.map h) n = (storeFind store n).map h := by
  unfold storeFind
  rw [List.find?_map]
  have hpred : ((fun g : Feature => g.name == n) ∘ h) = (fun g : Feature => g.name == n) := by
    funext g
    simp [Function.comp, hname]
  rw [hpred]

/-- Name of a feature found in the store matches the searched name. -/
theorem storeFind_name (store : List Feature) (n : String) (f : Feature)
    (h : storeFind store n = some f) : f.name = n := by
  have := List.find?_some h
  simpa using this

/-- Found features belong to the store. -/
theorem storeFind_mem (store : List Feature) (n : String) (f : Feature)
    (h : storeFind store n = some f) : f ∈ store :=
  List.mem_of_find?_eq_some h

/-! Claim theorems. -/

/-- C4: for every feature store, feature name and value outside N and C,
the data_type setter raises the ValueError with the documented message and
leaves the store unchanged (the raise precedes any mutation). -/
theorem C4_invalid_data_type_rejected (store : List Feature) (fname v : String)
    (now : Nat) (h1 : v ≠ "N") (h2 : v ≠ "C") :
    setDataTypeInStore store fname v now =
      { store := store, error := some ("Data type must be \x27N\x27 or \x27C\x27") } := by
  have hb : (v != "N" && v != "C") = true := by
    simp only [Bool.and_eq_true, bne_iff_ne]
    exact ⟨h1, h2⟩
  unfold setDataTypeInStore
  rw [hb]
  rfl

/-- C4 witness at a concrete invalid value. -/
theorem C4_invalid_data_type_rejected_witness :
    ("X" : String) ≠ "N" ∧ ("X" : String) ≠ "C" ∧
    setDataTypeInStore exCacheNC ("x") ("X") 5 =
      { store := exCacheNC, error := some ("Data type must be \x27N\x27 or \x27C\x27") } :=
  ⟨by decide, by decide,
    C4_invalid_data_type_rejected exCacheNC ("x") ("X") 5 (by decide) (by decide)⟩

/-- Name preservation of the per-feature type-change effect. -/
theorem applyTypeChange_name (fname v : String) (now : Nat) (g : Feature) :
    (applyTypeChange fname v now g).name = g.name := by
  unfold applyTypeChange
  by_cases hg : (g.name == fname) = true <;>
    simp [hg, Feature.clear_correlations]

/-- C3: assigning a cache-resident feature a different valid semantic type
leaves it with correlations_calculated = false, informative_calculated =
false, the default informative_missingness, and no recommendation; assigning
the type it already holds changes nothing at all, timestamps included. -/
theorem C3_data_type_change_invalidates (store : List Feature) (fname v : String)
    (f : Feature) (now : Nat)
    (hf : storeFind store fname = some f) (hv : v = "N" ∨ v = "C") :
    (v ≠ f.data_type →
      ∃ f2, storeFind (setDataTypeInStore store fname v now).store fname = some f2 ∧
        f2.data_type = v ∧
        f2.correlations_calculated = false ∧
        f2.correlated_features = [] ∧
        f2.informative_calculated = false ∧
        f2.informative_missingness = defaultInformative ∧
        f2.recommendation = none ∧
        f2.recommendation_calculated = false) ∧
    (v = f.data_type →
      setDataTypeInStore store fname v now = { store := store, error := none }) := by
  have hvb : (v != "N" && v != "C") = false := by
    rcases hv with h | h <;> subst h <;> decide
  constructor
  · intro hne
    have hbeq : (f.data_type == v) = false :=
      beq_eq_false_iff_ne.mpr (fun hh => hne hh.symm)
    have hstore : (setDataTypeInStore store fname v now).store =
        store.map (applyTypeChange fname v now) := by
      unfold setDataTypeInStore
      rw [hvb, hf]
      simp [hbeq]
    rw [hstore, storeFind_map store _ (applyTypeChange_name fname v now) fname, hf]
    have hfn : (f.name == fname) = true := by
      simp [storeFind_name store fname f hf]
    refine ⟨applyTypeChange fname v now f, rfl, ?_⟩
    unfold applyTypeChange
    rw [hfn]
    simp [Feature.clear_correlations]
  · intro heq
    have hbeq : (f.data_type == v) = true := by simp [heq]
    unfold setDataTypeInStore
    rw [hvb, hf]
    simp [hbeq]

/-- C3 witness: in the two-feature cache, flipping x from N to C resets all
derived state of x, and re-assigning N to x is a strict no-op. -/
theorem C3_data_type_change_invalidates_witness :
    (storeFind exCacheNC ("x") = some exFeatureX ∧ (("C":String) = "N" ∨ ("C":String) = "C") ∧
      ("C":String) ≠ exFeatureX.data_type ∧
      (∃ f2, storeFind (setDataTypeInStore exCacheNC ("x") ("C") 5).store ("x") = some f2 ∧
        f2.data_type = "C" ∧
        f2.correlations_calculated = false ∧
        f2.correlated_features = [] ∧
        f2.informative_calculated = false ∧
        f2.informative_missingness = defaultInformative ∧
        f2.recommendation = none ∧
        f2.recommendation_calculated = false)) ∧
    (("N":String) = exFeatureX.data_type ∧
      setDataTypeInStore exCacheNC ("x") ("N") 5 = { store := exCacheNC, error := none }) :=
  ⟨⟨by decide, Or.inr rfl, by decide,
    (C3_data_type_change_invalidates exCacheNC ("x") ("C") exFeatureX 5
      (by decide) (Or.inr rfl)).1 (by decide)⟩,
   ⟨by decide,
    (C3_data_type_change_invalidates exCacheNC ("x") ("N") exFeatureX 5
      (by decide) (Or.inl rfl)).2 (by decide)⟩⟩

/-- C10: a valid type change on one cache-resident feature clears the cached
correlations, threshold snapshot and recommendation of every feature in the
store, not only the changed one. -/
theorem C10_type_change_clears_every_feature (store : List Feature)
    (fname v : String) (f : Feature) (now : Nat) (g2 : Feature)
    (hf : storeFind store fname = some f) (hv : v = "N" ∨ v = "C")
    (hne : v ≠ f.data_type)
    (hg : g2 ∈ (setDataTypeInStore store fname v now).store) :
    g2.correlations_calculated = false ∧ g2.correlated_features = [] ∧
    g2.last_thresholds = [] ∧ g2.recommendation = none ∧
    g2.recommendation_calculated = false := by
  have hvb : (v != "N" && v != "C") = false := by
    rcases hv with h | h <;> subst h <;> decide
  have hbeq : (f.data_type == v) = false :=
    beq_eq_false_iff_ne.mpr (fun hh => hne hh.symm)
  have hstore : (setDataTypeInStore store fname v now).store =
      store.map (applyTypeChange fname v now) := by
    unfold setDataTypeInStore
    rw [hvb, hf]
    simp [hbeq]
  rw [hstore] at hg
  obtain ⟨g, hgmem, rfl⟩ := List.mem_map.mp hg
  unfold applyTypeChange
  by_cases hn : (g.name == fname) = true <;>
    simp [hn, Feature.clear_correlations]

/-- C10 witness: flipping x to C also clears the untouched feature c. -/
theorem C10_type_change_clears_every_feature_witness :
    ({ exFeatureC with last_updated := 5 } ∈
      (setDataTypeInStore exCacheNC ("x") ("C") 5).store) ∧
    ({ exFeatureC with last_updated := 5 } : Feature).correlations_calculated = false ∧
    ({ exFeatureC with last_updated := 5 } : Feature).correlated_features = [] ∧
    ({ exFeatureC with last_updated := 5 } : Feature).last_thresholds = [] ∧
    ({ exFeatureC with last_updated := 5 } : Feature).recommendation = none ∧
    ({ exFeatureC with last_updated := 5 } : Feature).recommendation_calculated = false :=
  ⟨by decide,
   C10_type_change_clears_every_feature exCacheNC ("x") ("C") exFeatureX 5
     { exFeatureC with last_updated := 5 }
     (by decide) (Or.inr rfl) (by decide) (by decide)⟩

/-- C5: the recalculation gate returns true exactly when correlations were
never computed or some requested threshold entry differs from the cached
snapshot; when it returns false, the feature-details route leaves the feature
untouched (no recomputation). -/
theorem C5_recalculation_gate (f : Feature) (new_thresholds : List (String × ℚ))
    (o : StatsOracle) (cache : List Feature) (df : Dataset)
    (pT cT eT : ℚ) (now : Nat) :
    (f.should_recalculate_correlations new_thresholds = true ↔
      (f.correlations_calculated = false ∨
        ∃ kv ∈ new_thresholds, f.last_thresholds.lookup kv.1 ≠ some kv.2)) ∧
    (f.should_recalculate_correlations (currentThresholds pT cT eT) = false →
      get_feature_details_correlation_step o cache df f pT cT eT now = f) := by
  constructor
  · unfold Feature.should_recalculate_correlations
    cases hc : f.correlations_calculated
    · simp [hc]
    · simp [hc, List.any_eq_true]
  · intro h
    unfold get_feature_details_correlation_step
    simp [h]

/-- C5 witness: a feature cached under the default thresholds is a cache hit
for the same thresholds and the details step changes nothing. -/
theorem C5_recalculation_gate_witness :
    exCachedFeature.should_recalculate_correlations
      (currentThresholds 1 1 1) = false ∧
    get_feature_details_correlation_step exOracleEta exCacheNC exDfEta
      exCachedFeature 1 1 1 9 = exCachedFeature :=
  ⟨by decide,
   (C5_recalculation_gate exCachedFeature [] exOracleEta exCacheNC exDfEta
     1 1 1 9).2 (by decide)⟩

/-- C7: caching a recommendation never propagates a failure: the feature
always ends with recommendation_calculated = true, and when the engine
evaluation raised or produced nothing the stored recommendation is the rule-4
conservative fallback tagged with an explicit failure or error marker. -/
theorem C7_recommendation_caching_total (f : Feature) (outcome : EngineOutcome)
    (now : Nat) :
    (f.calculate_and_set_recommendation outcome now).recommendation_calculated = true ∧
    ((outcome = Except.ok none ∨ ∃ e, outcome = Except.error e) →
      ∃ r, (f.calculate_and_set_recommendation outcome now).recommendation = some r ∧
        r.rule_applied = 4 ∧
        (r.calculation_failed = true ∨ r.calculation_error = true)) := by
  rcases outcome with e | r0
  · exact ⟨rfl, fun _ => ⟨_, rfl, rfl, Or.inr rfl⟩⟩
  · rcases r0 with _ | r1
    · exact ⟨rfl, fun _ => ⟨_, rfl, rfl, Or.inl rfl⟩⟩
    · refine ⟨rfl, ?_⟩
      rintro (h | ⟨e, h⟩) <;> simp at h

/-- C7 witness at a concrete feature and the None-result outcome. -/
theorem C7_recommendation_caching_total_witness :
    ((Except.ok none : EngineOutcome) = Except.ok none ∨
      ∃ e, (Except.ok none : EngineOutcome) = Except.error e) ∧
    (exCatFeature.calculate_and_set_recommendation (Except.ok none) 7).recommendation_calculated = true ∧
    ∃ r, (exCatFeature.calculate_and_set_recommendation (Except.ok none) 7).recommendation = some r ∧
      r.rule_applied = 4 ∧
      (r.calculation_failed = true ∨ r.calculation_error = true) :=
  ⟨Or.inl rfl,
   (C7_recommendation_caching_total exCatFeature (Except.ok none) 7).1,
   (C7_recommendation_caching_total exCatFeature (Except.ok none) 7).2 (Or.inl rfl)⟩

/-- C1: a feature whose informative-missingness verdict is computed and
positive always receives the rule-1 missing-indicator recommendation,
whatever its correlation state, semantic type, or the dataset mechanism. -/
theorem C1_informative_always_rule1 (f : Feature) (dataset_mechanism : Option String)
    (h1 : f.informative_calculated = true)
    (h2 : f.informative_missingness.is_informative = true) :
    calculate_recommendation f dataset_mechanism = some rule1Recommendation := by
  have h : has_informative_missingness f = true := by
    simp [has_informative_missingness, h1, h2]
  simp [calculate_recommendation, h]

/-- C1 witness: an informative feature that also has cached correlations and
an MAR-or-MNAR mechanism still gets rule 1. -/
theorem C1_informative_always_rule1_witness :
    exInformativeFeature.informative_calculated = true ∧
    exInformativeFeature.informative_missingness.is_informative = true ∧
    calculate_recommendation exInformativeFeature (some ("MAR or MNAR")) =
      some rule1Recommendation :=
  ⟨by decide, by decide,
   C1_informative_always_rule1 exInformativeFeature (some ("MAR or MNAR"))
     (by decide) (by decide)⟩

/-- C9 counterexample: a categorical feature with correlations_calculated =
false and informative_calculated = false receives rule 3, not rule 5, under
an MCAR mechanism — rule 3 fires before the mechanism rules. -/
theorem C9_counterexample_categorical_rule3 :
    exCatFeature.correlations_calculated = false ∧
    exCatFeature.informative_calculated = false ∧
    calculate_recommendation exCatFeature (some ("MCAR")) = some rule3Recommendation ∧
    (calculate_recommendation exCatFeature (some ("MCAR"))).map
      Recommendation.rule_applied ≠ some 5 := by
  refine ⟨by decide, by decide, by decide, by decide⟩

/-- C9 (amended): a numeric feature with correlations_calculated = false and
informative_calculated = false receives rule 5 under an MCAR mechanism. -/
theorem C9_mcar_rule5_for_numeric (f : Feature)
    (h1 : f.correlations_calculated = false)
    (h2 : f.informative_calculated = false)
    (h3 : f.data_type = "N") :
    calculate_recommendation f (some ("MCAR")) =
      some (rule5Recommendation (some ("MCAR"))) := by
  have hni : has_informative_missingness f = false := by
    simp [has_informative_missingness, h2]
  have hns : is_strongly_correlated f = false := by
    simp [is_strongly_correlated, h1]
  have hnc : is_categorical_feature f = false := by
    unfold is_categorical_feature
    rw [h3]
    decide
  have h4 : is_mar_or_mnar_mechanism (some ("MCAR")) = false := by decide
  have h5 : is_mcar_mechanism (some ("MCAR")) = true := by decide
  simp [calculate_recommendation, hni, hns, hnc, h4, h5]

/-- C9 amended witness at a concrete numeric feature. -/
theorem C9_mcar_rule5_for_numeric_witness :
    exNumFeature.correlations_calculated = false ∧
    exNumFeature.informative_calculated = false ∧
    exNumFeature.data_type = "N" ∧
    calculate_recommendation exNumFeature (some ("MCAR")) =
      some (rule5Recommendation (some ("MCAR"))) :=
  ⟨by decide, by decide, by decide,
   C9_mcar_rule5_for_numeric exNumFeature (by decide) (by decide) (by decide)⟩

/-- C8: on a present, non-empty dataset with no missing value, the mechanism
oracle returns the failure verdict tagged no_missing_data without invoking
the MCAR test, caches it, and a second call returns the cached verdict, again
without invoking the test. -/
theorem C8_no_missing_data_short_circuit (df : Dataset)
    (mcarTest : Dataset → MCARTestResult)
    (h1 : dfEmpty df = false) (h2 : hasAnyMissing df = false) :
    (get_cached_missing_mechanism none (some df) mcarTest).result =
      mechanismFailure
        ("No missing data found in dataset - mechanism analysis not applicable.")
        ("no_missing_data") ∧
    (get_cached_missing_mechanism none (some df) mcarTest).result.error_type =
      some ("no_missing_data") ∧
    (get_cached_missing_mechanism none (some df) mcarTest).result.success = false ∧
    (get_cached_missing_mechanism none (some df) mcarTest).testInvoked = false ∧
    (get_cached_missing_mechanism none (some df) mcarTest).newCache =
      some (get_cached_missing_mechanism none (some df) mcarTest).result ∧
    get_cached_missing_mechanism
        ((get_cached_missing_mechanism none (some df) mcarTest).newCache)
        (some df) mcarTest =
      { result := (get_cached_missing_mechanism none (some df) mcarTest).result
        newCache := (get_cached_missing_mechanism none (some df) mcarTest).newCache
        testInvoked := false } := by
  have hstep : get_cached_missing_mechanism none (some df) mcarTest =
      { result := mechanismFailure
          ("No missing data found in dataset - mechanism analysis not applicable.")
          ("no_missing_data")
        newCache := some (mechanismFailure
          ("No missing data found in dataset - mechanism analysis not applicable.")
          ("no_missing_data"))
        testInvoked := false } := by
    unfold get_cached_missing_mechanism
    simp [h1, h2]
  rw [hstep]
  refine ⟨rfl, rfl, rfl, rfl, rfl, rfl⟩

/-- C8 witness on a concrete one-cell complete dataset. -/
theorem C8_no_missing_data_short_circuit_witness :
    dfEmpty exDfNoMissing = false ∧
    hasAnyMissing exDfNoMissing = false ∧
    (get_cached_missing_mechanism none (some exDfNoMissing) exTestOracle).result.error_type =
      some ("no_missing_data") ∧
    (get_cached_missing_mechanism none (some exDfNoMissing) exTestOracle).testInvoked = false :=
  ⟨by decide, by decide,
   (C8_no_missing_data_short_circuit exDfNoMissing exTestOracle (by decide) (by decide)).2.1,
   (C8_no_missing_data_short_circuit exDfNoMissing exTestOracle (by decide) (by decide)).2.2.2.1⟩

/-- Paired valid-row count is symmetric in the two series. -/
theorem validPairs_length_symm (xs ys : List (Option ℚ)) :
    (validPairs xs ys).length = (validPairs ys xs).length := by
  induction xs generalizing ys with
  | nil => cases ys <;> simp [validPairs]
  | cons x xs ih =>
    cases ys with
    | nil => simp [validPairs]
    | cons y ys =>
      cases x <;> cases y <;>
        simp [validPairs, List.zip_cons_cons, List.filterMap_cons] <;>
        simpa [validPairs] using ih _

/-- Whenever calculate_eta produces a result, at least 10 valid paired rows
were available (feature.py line 365 skips only sizes strictly below 10). -/
theorem calculate_eta_some_length (o : StatsOracle)
    (cat num : List (Option ℚ)) (r : Option ℚ × ℚ)
    (h : calculate_eta o cat num = some r) :
    (validPairs cat num).length ≥ 10 := by
  by_contra hlt
  push_neg at hlt
  simp only [calculate_eta] at h
  rw [if_pos hlt] at h
  exact Option.noConfusion h

/-- Each element of the correlation result arises from scoring one other
column of the dataframe, and the scored feature is cached. -/
theorem mem_correlations (o : StatsOracle) (cache : List Feature) (df : Dataset)
    (fname : String) (pT cT eT : ℚ) (e : CorrEntry)
    (he : e ∈ calculate_feature_correlations_with_thresholds o cache df fname pT cT eT) :
    (storeFind cache fname).isSome ∧
    ∃ col ∈ df, (col.1 ≠ fname ∧
      scorePair o cache df fname pT cT eT col = some e) := by
  simp only [calculate_feature_correlations_with_thresholds] at he
  split at he
  · simp at he
  split at he
  · simp at he
  next hfound =>
    refine ⟨Option.isSome_iff_ne_none.mpr (by simpa using hfound), ?_⟩
    rw [List.mem_mergeSort] at he
    obtain ⟨col, hcol, hsc⟩ := List.mem_filterMap.mp he
    by_cases hn : (col.1 == fname) = true
    · rw [if_pos hn] at hsc
      exact Option.noConfusion hsc
    · rw [if_neg hn] at hsc
      exact ⟨col, hcol, by simpa using hn, hsc⟩

/-- Branch analysis of scorePair: every produced entry names the partner
column, both columns had a present value, the stored value is the raw
statistic rounded to 3 decimals, and the raw statistic met its kind's
threshold; the Pearson and Cramers V branches moreover required a paired
sample size strictly above 10. -/
theorem scorePair_threshold (o : StatsOracle) (cache : List Feature) (df : Dataset)
    (fname : String) (pT cT eT : ℚ) (col : String × List (Option ℚ)) (e : CorrEntry)
    (h : scorePair o cache df fname pT cT eT col = some e) :
    e.feature_name = col.1 ∧
    allMissing ((colValues df fname).getD []) = false ∧
    allMissing col.2 = false ∧
    ∃ raw, e.correlation_value = round3 raw ∧
      ((e.correlation_type = "r" ∧ |raw| ≥ pT ∧
          (validPairs ((colValues df fname).getD []) col.2).length > 10) ∨
       (e.correlation_type = "η" ∧ raw ≥ eT) ∨
       (e.correlation_type = "V" ∧ raw ≥ cT ∧
          (validPairs ((colValues df fname).getD []) col.2).length > 10)) := by
  simp only [scorePair] at h
  split at h
  · exact Option.noConfusion h
  next hmiss =>
    simp only [Bool.or_eq_true, not_or, Bool.not_eq_true] at hmiss
    obtain ⟨hm1, hm2⟩ := hmiss
    split at h
    · -- Pearson branch
      split at h
      next hlen =>
        split at h
        next corr heq =>
          split at h
          next hth =>
            injection h with h1
            subst h1
            exact ⟨rfl, hm1, hm2, corr, rfl, Or.inl ⟨rfl, hth, hlen⟩⟩
          next _ => exact Option.noConfusion h
        next => exact Option.noConfusion h
      next _ => exact Option.noConfusion h
    · split at h
      · -- Eta branch
        split at h
        next eta p heq =>
          split at h
          next hth =>
            injection h with h1
            subst h1
            exact ⟨rfl, hm1, hm2, eta, rfl, Or.inr (Or.inl ⟨rfl, hth⟩)⟩
          next _ => exact Option.noConfusion h
        next => exact Option.noConfusion h
      · -- Cramers V branch
        split at h
        next hlen =>
          split at h
          next hshape =>
            split at h
            next chi2v heq =>
              split at h
              next hmin =>
                split at h
                next hneg => exact Option.noConfusion h
                next hneg =>
                  split at h
                  next hth =>
                    injection h with h1
                    subst h1
                    exact ⟨rfl, hm1, hm2, _, rfl, Or.inr (Or.inr ⟨rfl, hth, hlen⟩)⟩
                  next _ => exact Option.noConfusion h
              next _ => exact Option.noConfusion h
            next => exact Option.noConfusion h
          next _ => exact Option.noConfusion h
        next _ => exact Option.noConfusion h

/-- Paired-size precondition of the Eta branch: when the scored feature's
cached type is valid (N or C), an η entry implies at least 10 valid paired
rows between the two columns (at least, not strictly more than, 10:
calculate_eta skips only sizes strictly below 10). -/
theorem scorePair_eta_length (o : StatsOracle) (cache : List Feature) (df : Dataset)
    (fname : String) (pT cT eT : ℚ) (col : String × List (Option ℚ)) (e : CorrEntry)
    (hft : cachedType cache fname = "N" ∨ cachedType cache fname = "C")
    (h : scorePair o cache df fname pT cT eT col = some e)
    (hkind : e.correlation_type = "η") :
    (validPairs ((colValues df fname).getD []) col.2).length ≥ 10 := by
  simp only [scorePair] at h
  split at h
  · exact Option.noConfusion h
  next hmiss =>
    split at h
    · -- Pearson branch produces kind r, contradicting hkind
      split at h
      next hlen =>
        split at h
        next corr heq =>
          split at h
          next hth =>
            injection h with h1
            subst h1
            simp at hkind
          next _ => exact Option.noConfusion h
        next => exact Option.noConfusion h
      next _ => exact Option.noConfusion h
    · split at h
      next hcond =>
        -- Eta branch
        split at h
        next eta p heq =>
          split at h
          next hth =>
            have hlen := calculate_eta_some_length o _ _ _ heq
            rcases hft with hft | hft
            · simp only [hft] at hlen
              simp at hlen
              calc (10:Nat) ≤ (validPairs col.2 ((colValues df fname).getD [])).length := hlen
                _ = _ := validPairs_length_symm _ _
            · simp only [hft] at hlen hcond
              simp at hlen hcond
              exact hlen
          next _ => exact Option.noConfusion h
        next => exact Option.noConfusion h
      next hcond =>
        -- Cramers V branch produces kind V, contradicting hkind
        split at h
        next hlen =>
          split at h
          next hshape =>
            split at h
            next chi2v heq =>
              split at h
              next hmin =>
                split at h
                next hneg => exact Option.noConfusion h
                next hneg =>
                  split at h
                  next hth =>
                    injection h with h1
                    subst h1
                    simp at hkind
                  next _ => exact Option.noConfusion h
              next _ => exact Option.noConfusion h
            next => exact Option.noConfusion h
          next _ => exact Option.noConfusion h
        next _ => exact Option.noConfusion h

/-- The correlation result is sorted by absolute stored value, descending. -/
theorem correlations_sorted (o : StatsOracle) (cache : List Feature) (df : Dataset)
    (fname : String) (pT cT eT : ℚ) :
    (calculate_feature_correlations_with_thresholds o cache df fname pT cT eT).Pairwise
      (fun a b => |b.correlation_value| ≤ |a.correlation_value|) := by
  unfold calculate_feature_correlations_with_thresholds
  split
  · exact List.Pairwise.nil
  split
  · exact List.Pairwise.nil
  · refine List.Pairwise.imp ?_ (List.sorted_mergeSort ?_ ?_ _)
    · intro a b hab
      exact of_decide_eq_true hab
    · intro a b c hab hbc
      simp only [decide_eq_true_eq] at *
      exact le_trans hbc hab
    · intro a b
      simp only [Bool.or_eq_true, decide_eq_true_eq]
      exact le_total _ _

/-- Rounding to 3 decimals moves a rational by at most 1/2000. -/
theorem round3_sub_abs (x : ℚ) : |round3 x - x| ≤ 1/2000 := by
  have h : round3 x - x = (((round (x * 1000) : ℤ) : ℚ) - x * 1000) / 1000 := by
    unfold round3; ring
  rw [h, abs_div]
  have h2 : |((round (x * 1000) : ℤ) : ℚ) - x * 1000| ≤ 1/2 := by
    calc |((round (x * 1000) : ℤ) : ℚ) - x * 1000|
        = |x * 1000 - ((round (x * 1000) : ℤ) : ℚ)| := abs_sub_comm _ _
      _ ≤ 1/2 := abs_sub_round (x * 1000)
  have h3 : |(1000 : ℚ)| = 1000 := by norm_num
  rw [h3]
  linarith

/-- The absolute rounded value sits within 1/2000 of the raw absolute value. -/
theorem abs_round3_ge (x : ℚ) : |round3 x| ≥ |x| - 1/2000 := by
  have h1 := round3_sub_abs x
  have h2 : |x| - |round3 x| ≤ |x - round3 x| := abs_sub_abs_le_abs_sub x (round3 x)
  have h3 : |x - round3 x| = |round3 x - x| := abs_sub_comm _ _
  linarith

/-- C6 (amended): the correlation result is sorted by absolute stored value
descending, and every entry stores the 3-decimal rounding of a raw statistic
that met its kind's threshold before rounding (|r| for Pearson, the raw η and
V values for the other kinds); the stored absolute value can therefore sit up
to 1/2000 below the configured threshold but no lower. -/
theorem C6_sorted_and_thresholded (o : StatsOracle) (cache : List Feature)
    (df : Dataset) (fname : String) (pT cT eT : ℚ) :
    (calculate_feature_correlations_with_thresholds o cache df fname pT cT eT).Pairwise
      (fun a b => |b.correlation_value| ≤ |a.correlation_value|) ∧
    ∀ e ∈ calculate_feature_correlations_with_thresholds o cache df fname pT cT eT,
      ∃ raw, e.correlation_value = round3 raw ∧
        |e.correlation_value| ≥ |raw| - 1/2000 ∧
        ((e.correlation_type = "r" ∧ |raw| ≥ pT) ∨
         (e.correlation_type = "η" ∧ raw ≥ eT) ∨
         (e.correlation_type = "V" ∧ raw ≥ cT)) := by
  refine ⟨correlations_sorted o cache df fname pT cT eT, ?_⟩
  intro e he
  obtain ⟨hsome, col, hcol, hne, hsc⟩ := mem_correlations o cache df fname pT cT eT e he
  obtain ⟨hfn, hm1, hm2, raw, hval, hdisj⟩ :=
    scorePair_threshold o cache df fname pT cT eT col e hsc
  refine ⟨raw, hval, by rw [hval]; exact abs_round3_ge raw, ?_⟩
  rcases hdisj with ⟨hk, hth, _⟩ | ⟨hk, hth⟩ | ⟨hk, hth, _⟩
  · exact Or.inl ⟨hk, hth⟩
  · exact Or.inr (Or.inl ⟨hk, hth⟩)
  · exact Or.inr (Or.inr ⟨hk, hth⟩)

/-- C2 (amended): every scored pair required both columns non-degenerate (at
least one present value each); the Pearson and Cramers V kinds required a
paired sample size strictly above 10, while the Eta kind required only at
least 10 — a pair with exactly 10 paired rows can be scored by Eta. -/
theorem C2_pair_scoring_preconditions (o : StatsOracle) (cache : List Feature)
    (df : Dataset) (fname : String) (pT cT eT : ℚ) (e : CorrEntry)
    (hw : ∀ g ∈ cache, g.data_type = "N" ∨ g.data_type = "C")
    (he : e ∈ calculate_feature_correlations_with_thresholds o cache df fname pT cT eT) :
    ∃ col ∈ df, col.1 = e.feature_name ∧
      allMissing ((colValues df fname).getD []) = false ∧
      allMissing col.2 = false ∧
      ((e.correlation_type = "r" ∨ e.correlation_type = "V") →
        (validPairs ((colValues df fname).getD []) col.2).length > 10) ∧
      (e.correlation_type = "η" →
        (validPairs ((colValues df fname).getD []) col.2).length ≥ 10) := by
  obtain ⟨hsome, col, hcol, hne, hsc⟩ := mem_correlations o cache df fname pT cT eT e he
  obtain ⟨hfn, hm1, hm2, raw, hval, hdisj⟩ :=
    scorePair_threshold o cache df fname pT cT eT col e hsc
  have hft : cachedType cache fname = "N" ∨ cachedType cache fname = "C" := by
    obtain ⟨g0, hg0⟩ := Option.isSome_iff_exists.mp hsome
    have hg0t := hw g0 (storeFind_mem cache fname g0 hg0)
    unfold cachedType
    rw [hg0]
    simpa using hg0t
  refine ⟨col, hcol, hfn.symm, hm1, hm2, ?_, ?_⟩
  · intro hrv
    rcases hdisj with ⟨hk, _, hlen⟩ | ⟨hk, _⟩ | ⟨hk, _, hlen⟩
    · exact hlen
    · rcases hrv with hr | hv
      · rw [hk] at hr
        exact absurd hr (by decide)
      · rw [hk] at hv
        exact absurd hv (by decide)
    · exact hlen
  · intro hk
    exact scorePair_eta_length o cache df fname pT cT eT col e hft hsc hk

set_option maxHeartbeats 1000000 in
/-- Evaluation of the correlation computation on the 10-row Eta instance:
the single candidate pair is scored, yielding the η entry. -/
theorem exEta_eval :
    calculate_feature_correlations_with_thresholds exOracleEta exCacheNC exDfEta ("x")
      (7/10) (7/10) (7/10) = [exEtaEntry] := by
  have hms : List.mergeSort [(0:ℚ), 1] (fun a b => decide (a ≤ b)) = [0, 1] := by
    apply List.mergeSort_of_sorted
    norm_num [List.pairwise_cons]
  have sxx : (("x":String) == "x") = true := by decide
  have scx : (("c":String) == "x") = false := by decide
  have sxc : (("x":String) == "c") = false := by decide
  have scc : (("c":String) == "c") = true := by decide
  have snn : (("N":String) == "N") = true := by decide
  have scn : (("C":String) == "N") = false := by decide
  have snc : (("N":String) == "C") = false := by decide
  have hvp : validPairs
      [some 0, some 1, some 0, some 1, some 0, some 1, some 0, some 1, some 0, some 1]
      [some 1, some 2, some 3, some 4, some 5, some 6, some 7, some 8, some 9, some 10] =
      ([((0:ℚ),(1:ℚ)),(1,2),(0,3),(1,4),(0,5),(1,6),(0,7),(1,8),(0,9),(1,10)]) := by
    decide
  have hdd : ([(0:ℚ),1,0,1,0,1,0,1,0,1]).dedup = [0,1] := by
    norm_num [List.dedup_cons_of_mem, List.dedup_cons_of_not_mem]
  have hds : distinctSorted [(0:ℚ),1,0,1,0,1,0,1,0,1] = [0,1] := by
    unfold distinctSorted
    rw [hdd, hms]
  have hgr : groupsFor ([((0:ℚ),(1:ℚ)),(1,2),(0,3),(1,4),(0,5),(1,6),(0,7),(1,8),(0,9),(1,10)]) =
      [[1,3,5,7,9],[2,4,6,8,10]] := by
    norm_num [groupsFor, hds]
  have heta : calculate_eta exOracleEta
      [some 0, some 1, some 0, some 1, some 0, some 1, some 0, some 1, some 0, some 1]
      [some 1, some 2, some 3, some 4, some 5, some 6, some 7, some 8, some 9, some 10] =
      some (some 1, 1/100) := by
    norm_num [calculate_eta, hvp, hgr, exOracleEta]
  have h1 : scorePair exOracleEta exCacheNC exDfEta ("x") (7/10) (7/10) (7/10)
      (("c"), [some 0, some 1, some 0, some 1, some 0, some 1, some 0, some 1, some 0, some 1]) =
      some exEtaEntry := by
    norm_num [scorePair, colValues, allMissing, cachedType, storeFind, exDfEta, exCacheNC,
      exFeatureX, exFeatureC, Feature.init, List.find?, heta, round3, round_eq, exEtaEntry,
      sxx, scx, sxc, scc, snn, scn, snc]
  have qcx : (("c":String) = "x") = False := by simp
  have qcn : (("C":String) = "N") = False := by simp
  have qnc : (("N":String) = "C") = False := by simp
  have qsome : ∀ x : ℚ, (some x = none) = False := by simp
  norm_num [calculate_feature_correlations_with_thresholds, scorePair, colValues,
    storeFind, cachedType, allMissing, exDfEta, exCacheNC, exFeatureX, exFeatureC,
    Feature.init, List.find?, List.filterMap_cons, heta, round3, round_eq, exEtaEntry,
    sxx, scx, sxc, scc, snn, scn, snc, qcx, qcn, qnc, qsome]

set_option maxHeartbeats 1000000 in
/-- Evaluation of the correlation computation on the 11-row Pearson instance:
the raw correlation 0.7004 meets the threshold 0.7004, and the stored value
is its 3-decimal rounding 0.7. -/
theorem exP_eval :
    calculate_feature_correlations_with_thresholds exOracleP exCacheNN exDfNN ("x")
      (7004/10000) (7/10) (7/10) = [exPearsonEntry] := by
  have sxx : (("x":String) == "x") = true := by decide
  have syx : (("y":String) == "x") = false := by decide
  have sxy : (("x":String) == "y") = false := by decide
  have syy : (("y":String) == "y") = true := by decide
  have snn : (("N":String) == "N") = true := by decide
  have qyx : (("y":String) = "x") = False := by simp
  have qsome : ∀ x : ℚ, (some x = none) = False := by simp
  have hvp : validPairs
      [some 1, some 2, some 3, some 4, some 5, some 6,
        some 7, some 8, some 9, some 10, some 11]
      [some 2, some 4, some 6, some 8, some 10, some 12,
        some 14, some 16, some 18, some 20, some 22] =
      ([((1:ℚ),(2:ℚ)),(2,4),(3,6),(4,8),(5,10),(6,12),(7,14),(8,16),(9,18),(10,20),(11,22)]) := by
    decide
  norm_num [calculate_feature_correlations_with_thresholds, scorePair, colValues,
    storeFind, cachedType, allMissing, exDfNN, exCacheNN, exFeatureX, exFeatureY,
    Feature.init, List.find?, List.filterMap_cons, hvp, round3, round_eq, exOracleP,
    exPearsonEntry, sxx, syx, sxy, syy, snn, qyx, qsome]
  have habs : ((1751:ℚ)/2500 ≤ |(1751:ℚ)/2500|) = True := by
    rw [abs_of_nonneg (by norm_num : (0:ℚ) ≤ 1751/2500)]
    simp
  norm_num [habs]

/-- C2 counterexample: on the 10-row instance the x-c pair has a paired
sample size of exactly 10 — not strictly above 10 — yet it is scored and
produces an entry (through the Eta branch, which skips only sizes below 10). -/
theorem C2_counterexample_eta_scored_at_paired_10 :
    pairedCount exDfEta ("x") ("c") = 10 ∧
    calculate_feature_correlations_with_thresholds exOracleEta exCacheNC exDfEta ("x")
      (7/10) (7/10) (7/10) = [exEtaEntry] := by
  constructor
  · decide
  · exact exEta_eval

/-- C2 amended witness at the 10-row Eta instance. -/
theorem C2_pair_scoring_preconditions_witness :
    (∀ g ∈ exCacheNC, g.data_type = "N" ∨ g.data_type = "C") ∧
    exEtaEntry ∈ calculate_feature_correlations_with_thresholds exOracleEta exCacheNC
      exDfEta ("x") (7/10) (7/10) (7/10) ∧
    ∃ col ∈ exDfEta, col.1 = exEtaEntry.feature_name ∧
      allMissing ((colValues exDfEta ("x")).getD []) = false ∧
      allMissing col.2 = false ∧
      ((exEtaEntry.correlation_type = "r" ∨ exEtaEntry.correlation_type = "V") →
        (validPairs ((colValues exDfEta ("x")).getD []) col.2).length > 10) ∧
      (exEtaEntry.correlation_type = "η" →
        (validPairs ((colValues exDfEta ("x")).getD []) col.2).length ≥ 10) :=
  ⟨by decide,
   by rw [exEta_eval]; exact List.mem_singleton_self _,
   C2_pair_scoring_preconditions exOracleEta exCacheNC exDfEta ("x") (7/10) (7/10) (7/10)
     exEtaEntry (by decide) (by rw [exEta_eval]; exact List.mem_singleton_self _)⟩

/-- C6 counterexample: with the threshold 0.7004 and a raw Pearson value of
exactly 0.7004, the pair is retained but its stored (rounded) absolute value
0.7 is strictly below the configured threshold. -/
theorem C6_counterexample_rounded_below_threshold :
    calculate_feature_correlations_with_thresholds exOracleP exCacheNN exDfNN ("x")
      (7004/10000) (7/10) (7/10) = [exPearsonEntry] ∧
    |exPearsonEntry.correlation_value| < 7004/10000 := by
  refine ⟨exP_eval, ?_⟩
  rw [show exPearsonEntry.correlation_value = 7/10 from rfl]
  rw [abs_of_nonneg (by norm_num : (0:ℚ) ≤ 7/10)]
  norm_num

/-- C6 amended witness at the Pearson instance. -/
theorem C6_sorted_and_thresholded_witness :
    exPearsonEntry ∈ calculate_feature_correlations_with_thresholds exOracleP exCacheNN
      exDfNN ("x") (7004/10000) (7/10) (7/10) ∧
    ∃ raw, exPearsonEntry.correlation_value = round3 raw ∧
      |exPearsonEntry.correlation_value| ≥ |raw| - 1/2000 ∧
      ((exPearsonEntry.correlation_type = "r" ∧ |raw| ≥ 7004/10000) ∨
       (exPearsonEntry.correlation_type = "η" ∧ raw ≥ 7/10) ∨
       (exPearsonEntry.correlation_type = "V" ∧ raw ≥ 7/10)) :=
  ⟨by rw [exP_eval]; exact List.mem_singleton_self _,
   (C6_sorted_and_thresholded exOracleP exCacheNN exDfNN ("x") (7004/10000)
     (7/10) (7/10)).2 exPearsonEntry
     (by rw [exP_eval]; exact List.mem_singleton_self _)⟩
